import Mathlib

/-!
Verification development for the BettaFish research/report pipeline.

Shallow embedding of the claim-relevant fragments of the sources:
- InsightEngine/tools/search.py (MediaCrawlerDB URL canonicalization and
  the global topic search assembly),
- ReportEngine/ir/link_repair.py (LinkRepairAgent),
- MediaEngine/agent.py (DeepSearchAgent research loop and multimodal
  cross-validation).

Python dictionaries are modelled as structures; a column or key the source
only ever tests for truthiness is modelled as a String with the empty string
standing for both a missing key and a NULL value. Keys read with a mandatory
lookup that can raise KeyError are modelled as Option fields, with the raise
modelled in the Except monad. External effects (network probes, SQL
execution, LLM collaborators) are oracle functions supplied as parameters.
-/

namespace HBF

/-! ### String helpers modelling Python str operations -/

/-- Python list-based prefix test: `hay` starts with `pat`. -/
def startsWithL : List Char → List Char → Bool
  | _, [] => true
  | [], _ :: _ => false
  | c :: cs, p :: ps => c == p && startsWithL cs ps

/-- Substring occurrence on character lists (for nonempty patterns this is
Python `pat in hay`). -/
def containsL : List Char → List Char → Bool
  | [], pat => pat.isEmpty
  | c :: rest, pat => startsWithL (c :: rest) pat || containsL rest pat

/-- Python `pat in s`. -/
def strContains (s pat : String) : Bool :=
  containsL s.toList pat.toList

/-- Python `s.lower()` (ASCII case folding; the strings the modelled code
lowercases are ASCII ids and snippets, CJK characters are unaffected). -/
def lowerStr (s : String) : String :=
  String.mk (s.toList.map Char.toLower)

/-- Python `s.isdigit()` on the ASCII digit range. -/
def pyIsDigit (s : String) : Bool :=
  s.length > 0 && s.toList.all Char.isDigit

/-- Python `s[:n]` (first n characters). -/
def takeChars (n : Nat) (s : String) : String :=
  String.mk (s.toList.take n)

/-- Python `a or b` on strings (first truthy operand). -/
def pyOr (a b : String) : String :=
  if a ≠ "" then a else b

/-- Python `s.strip()`: drop leading and trailing whitespace. -/
def pyStrip (s : String) : String :=
  String.mk (((s.toList.dropWhile Char.isWhitespace).reverse.dropWhile Char.isWhitespace).reverse)

/-- Maximal runs of characters satisfying keep, separators dropped
(generic worker for Python str.split() and re.findall of a character
class). The second argument accumulates the current run reversed. -/
def runsByAux (keep : Char → Bool) : List Char → List Char → List (List Char)
  | [], acc => if acc.isEmpty then [] else [acc.reverse]
  | c :: cs, acc =>
    if keep c then runsByAux keep cs (c :: acc)
    else if acc.isEmpty then runsByAux keep cs acc
    else acc.reverse :: runsByAux keep cs []

/-- Maximal runs of characters of s satisfying keep, as strings. -/
def runsBy (keep : Char → Bool) (s : String) : List String :=
  (runsByAux keep s.toList []).map String.mk

/-- Python `s.split()` (split on whitespace runs, no empty pieces). -/
def pySplitWs (s : String) : List String :=
  runsBy (fun c => !c.isWhitespace) s

/-- The table name up to the first underscore, Python
`table.split(underscore)[0]`. -/
def tableHead (table : String) : String :=
  String.mk (table.toList.takeWhile (fun c => c ≠ '_'))

/-! ### InsightEngine/tools/search.py -/

/-- One raw row of a content table as consumed by
MediaCrawlerDB._construct_url_smart and by the result-assembly loop of
search_topic_globally. Every field the modelled fragment reads is included;
the source only tests these columns for truthiness or formats them into
f-strings, so a missing or NULL column is the empty string. Columns the
modelled fragment never reads (timestamps, engagement counters, author
names) are omitted. -/
structure Row where
  video_id : String := ""
  bvid : String := ""
  aweme_id : String := ""
  question_id : String := ""
  content_id : String := ""
  note_id : String := ""
  thread_id : String := ""
  mblogid : String := ""
  parent_url : String := ""
  video_url : String := ""
  note_url : String := ""
  aweme_url : String := ""
  content_url : String := ""
  url : String := ""
  title : String := ""
  content : String := ""
  desc : String := ""
deriving Repr, DecidableEq

/-- The raw-URL fallback chain of _construct_url_smart (search.py lines
190-201): first present of parent_url, video_url, note_url, aweme_url,
content_url, url, accepted stripped when longer than 20 characters. -/
def url_fallback (row : Row) : String :=
  let db_url := pyOr row.parent_url (pyOr row.video_url (pyOr row.note_url
    (pyOr row.aweme_url (pyOr row.content_url row.url))))
  if db_url ≠ "" ∧ db_url.length > 20 then pyStrip db_url else ""

/-- Lines 186-201 of _construct_url_smart: keep the generated URL when it is
nonempty and contains "http", otherwise fall back to the raw URL columns. -/
def finish_url (generated : String) (row : Row) : String :=
  if generated ≠ "" ∧ strContains generated "http" then generated else url_fallback row

/-- The bilibili id branch (lines 146-151): BV ids and (case-insensitive) av
ids verbatim, purely numeric ids prefixed with av, anything else verbatim. -/
def bilibili_video_url (vid : String) : String :=
  if startsWithL vid.toList ['B', 'V'] then s!"https://www.bilibili.com/video/{vid}"
  else if startsWithL (lowerStr vid).toList ['a', 'v'] then s!"https://www.bilibili.com/video/{vid}"
  else if pyIsDigit vid then s!"https://www.bilibili.com/video/av{vid}"
  else s!"https://www.bilibili.com/video/{vid}"

/-- MediaCrawlerDB._construct_url_smart (search.py lines 140-206). The source
wraps the body in try/except returning "" on an internal exception; in this
typed embedding no operation of the body can fail, so the except branch is
unreachable and the function is total. The xhs branch returns its placeholder
before the generated-URL validation, exactly as the early return at line 155. -/
def construct_url_smart (platform : String) (row : Row) : String :=
  if platform = "bilibili" then
    let vid := pyStrip (pyOr row.video_id row.bvid)
    finish_url (if vid ≠ "" then bilibili_video_url vid else "") row
  else if platform = "xhs" then
    "（请在小红书App查看）"
  else if platform = "douyin" then
    finish_url (if row.aweme_id ≠ "" then s!"https://www.douyin.com/video/{row.aweme_id}" else "") row
  else if platform = "zhihu" then
    finish_url
      (if row.question_id ≠ "" ∧ row.content_id ≠ "" then
        s!"https://www.zhihu.com/question/{row.question_id}/answer/{row.content_id}"
      else if row.question_id ≠ "" then s!"https://www.zhihu.com/question/{row.question_id}"
      else if row.content_id ≠ "" then s!"https://www.zhihu.com/question/{row.content_id}"
      else "") row
  else if platform = "kuaishou" then
    finish_url (if row.video_id ≠ "" then s!"https://www.kuaishou.com/short-video/{row.video_id}" else "") row
  else if platform = "tieba" then
    let note_id := pyOr row.note_id row.thread_id
    finish_url (if note_id ≠ "" then s!"https://tieba.baidu.com/p/{note_id}" else "") row
  else if platform = "weibo" then
    finish_url
      (if row.note_id ≠ "" then s!"https://m.weibo.cn/detail/{row.note_id}"
      else if row.mblogid ≠ "" then s!"https://weibo.com/detail/{row.mblogid}"
      else "") row
  else
    finish_url "" row

/-- QueryResult dataclass (search.py lines 25-42) restricted to the fields the
modelled callers read. -/
structure QueryResult where
  platform : String
  content_type : String
  title_or_content : String
  url : String
  source_table : String
deriving Repr, DecidableEq

/-- The search_configs table of search_topic_globally (lines 219-239), in
Python dict insertion order, paired with each table's content type. -/
def search_config_tables : List (String × String) :=
  [("bilibili_video", "video"), ("bilibili_video_comment", "comment"),
   ("douyin_aweme", "video"), ("douyin_aweme_comment", "comment"),
   ("kuaishou_video", "video"), ("kuaishou_video_comment", "comment"),
   ("xhs_note", "note"), ("xhs_note_comment", "comment"),
   ("zhihu_content", "content"), ("zhihu_comment", "comment"),
   ("weibo_note", "note"), ("weibo_note_comment", "comment"),
   ("daily_news", "news")]

/-- The row-to-QueryResult assembly of search_topic_globally (lines 287-306):
content is the first truthy of title, content, desc; the platform is the
table name up to the first underscore; an empty canonical URL is replaced by
the fixed no-valid-source placeholder. -/
def rows_to_results (table ctype : String) (rows : List Row) : List QueryResult :=
  rows.map fun row =>
    let content := pyOr row.title (pyOr row.content row.desc)
    let platform_short := tableHead table
    let content_url :=
      let u := construct_url_smart platform_short row
      if u = "" then "（无有效来源链接）" else u
    { platform := platform_short, content_type := ctype, title_or_content := content,
      url := content_url, source_table := table }

/-- MediaCrawlerDB.search_topic_globally (lines 210-308), returning the
results field of the DBResponse. SQL execution (_execute_query) is the fetch
oracle: table name, topic and per-table limit to raw rows; on a database
error the source's _execute_query logs the exception and returns []. -/
def search_topic_globally (fetch : String → String → Nat → List Row)
    (topic : String) (limit_per_table : Nat) : List QueryResult :=
  (search_config_tables.map fun tc =>
    rows_to_results tc.1 tc.2 (fetch tc.1 topic limit_per_table)).flatten

/-! ### ReportEngine/ir/link_repair.py -/

/-- External effects used by LinkRepairAgent. probe is the network part of
_is_url_alive's try block (the requests.head/requests.get sequence); an
.error result models an exception raised there. dbAvailable is whether the
MediaCrawlerDB constructor succeeded (db_tool is None otherwise). fetch is
the SQL oracle behind search_topic_globally. -/
structure REnv where
  probe : String → Except Unit Bool
  dbAvailable : Bool
  fetch : String → String → Nat → List Row

/-- LinkRepairAgent._is_url_alive (link_repair.py lines 32-48): static
rejections first (empty, shorter than 10 characters, no "http", an ellipsis,
or the example.com placeholder), then the network probe, whose exceptions
are absorbed into false. The static rejections never consult the probe. -/
def is_url_alive (env : REnv) (url : String) : Bool :=
  if url = "" ∨ url.length < 10 ∨ strContains url "http" = false then false
  else if strContains url "..." ∨ strContains url "example.com" then false
  else
    match env.probe url with
    | .ok b => b
    | .error _ => false

/-- A Python word character as used by the source's regexes, modelled as
ASCII alphanumerics, underscore, and the CJK ideograph range U+4E00-U+9FA5
that the source's character classes name explicitly. -/
def isWordCharPy (c : Char) : Bool :=
  c.isAlphanum || c == '_' || decide (0x4e00 ≤ c.toNat ∧ c.toNat ≤ 0x9fa5)

/-- The query-key derivation of _find_real_url_from_db (lines 55-59):
replace every character outside word/CJK/whitespace by a space, split on
whitespace, re-join with single spaces, keep the first 20 characters. -/
def clean_query (query_text : String) : String :=
  let replaced := String.mk (query_text.toList.map fun c =>
    if isWordCharPy c || c.isWhitespace then c else ' ')
  takeChars 20 (String.intercalate " " (pySplitWs replaced))

/-- LinkRepairAgent._find_real_url_from_db (lines 50-77). none models the
source's None returns: database unavailable, empty anchor text, a key
shorter than 2 characters, no results, or a first result whose url is empty
or lacks "http". Only the first returned result is ever examined. The
enclosing try absorbs database errors; _execute_query already returns [] on
them, so fetch is total. The query is issued with limit_per_table = 1. -/
def find_real_url_from_db (env : REnv) (query_text : String) : Option String :=
  if env.dbAvailable = false ∨ query_text = "" then none
  else
    let cq := clean_query query_text
    if cq.length < 2 then none
    else
      match search_topic_globally env.fetch cq 1 with
      | [] => none
      | candidate :: _ =>
        if candidate.url ≠ "" ∧ strContains candidate.url "http" then some candidate.url
        else none

/-- The attribute map of a mark; of it the source reads and writes only
href (attrs.get and assignment), so other keys are not modelled. href is an
Option because the source reads it with a default. -/
structure MAttrs where
  href : Option String
deriving Repr, DecidableEq

/-- One mark dict of an inline run: a type tag (mark.get, with "" for an
absent type key, which compares unequal to link exactly as None does) and an
optional attrs map. -/
structure Mark where
  mtype : String := ""
  attrs : Option MAttrs := none
deriving Repr, DecidableEq

/-- One inline run: marks (run.get with default []) and the text key. text
is an Option because the source reads it both with a default (line 98) and
with a mandatory lookup that can raise KeyError (lines 122-123). -/
structure InlineRun where
  text : Option String := none
  marks : List Mark := []
deriving Repr, DecidableEq

/-! The document block tree walked by process_blocks_recursive (lines
84-133): a block carries its type tag, inline runs (used only when the type
is paragraph), list items (each item is itself a list of blocks), nested
blocks, and table rows of cells of blocks. A key absent from the dict
behaves exactly like an empty list in the walk, so lists model the optional
keys. -/
mutual
inductive Block : Type where
  | mk : String → List InlineRun → List BlockItem → List Block → List BlockRow → Block
inductive BlockItem : Type where
  | mk : List Block → BlockItem
inductive BlockRow : Type where
  | mk : List BlockCell → BlockRow
inductive BlockCell : Type where
  | mk : List Block → BlockCell
end

/-- A chapter of the report (blocks key, absent behaving as []). -/
structure Chapter where
  blocks : List Block

/-- The report_data document passed to repair_process (chapters key, absent
behaving as []). -/
structure Report where
  chapters : List Chapter

/-- attrs.get(href, default empty) through mark.get(attrs, default empty
dict), lines 96-97. -/
def mark_href (m : Mark) : String :=
  match m.attrs with
  | none => ""
  | some a => a.href.getD ""

/-- One iteration of the mark loop of repair_process (lines 93-123),
threading the enclosing run's text: the anchor text is re-read from the run
at line 98 on every iteration, and the fallback branch may append to it at
line 123. The .error case is the KeyError at line 122: the guarded suffix
append reads run[text] with a mandatory lookup while the anchor read uses a
default. On a successful database lookup the mark's attrs map is created if
missing and href replaced (lines 110-113, counter incremented); otherwise
href is set to the inert javascript:void(0); reference and the unavailable
suffix appended unless the guard string already occurs in the text. -/
def process_mark (env : REnv) (runText : Option String) (m : Mark) :
    Except Unit (Mark × Option String × Nat) :=
  if m.mtype = "link" then
    let original_url := mark_href m
    let anchor_text := runText.getD ""
    if is_url_alive env original_url then .ok (m, runText, 0)
    else
      match find_real_url_from_db env anchor_text with
      | some real_url =>
        let attrs0 := m.attrs.getD ⟨none⟩
        .ok ({ m with attrs := some { attrs0 with href := some real_url } }, runText, 1)
      | none =>
        let attrs0 := m.attrs.getD ⟨none⟩
        let m1 : Mark := { m with attrs := some { attrs0 with href := some "javascript:void(0);" } }
        match runText with
        | none => .error ()
        | some t =>
          if strContains t "(来源无法访问)" = false then .ok (m1, some (t ++ " (来源暂不可用)"), 0)
          else .ok (m1, some t, 0)
  else .ok (m, runText, 0)

/-- The mark loop over one run's marks (line 93), threading the run text and
summing the fixed-link counter contributions. -/
def process_marks (env : REnv) : List Mark → Option String → Except Unit (List Mark × Option String × Nat)
  | [], t => .ok ([], t, 0)
  | m :: ms, t => do
    let (m1, t1, n1) ← process_mark env t m
    let (ms1, t2, n2) ← process_marks env ms t1
    .ok (m1 :: ms1, t2, n1 + n2)

/-- Processing of one inline run (lines 90-123). -/
def process_run (env : REnv) (r : InlineRun) : Except Unit (InlineRun × Nat) := do
  let (ms, t, n) ← process_marks env r.marks r.text
  .ok ({ text := t, marks := ms }, n)

/-- The loop over a paragraph block's inline runs (line 90). -/
def process_runs (env : REnv) : List InlineRun → Except Unit (List InlineRun × Nat)
  | [] => .ok ([], 0)
  | r :: rs => do
    let (r1, n1) ← process_run env r
    let (rs1, n2) ← process_runs env rs
    .ok (r1 :: rs1, n1 + n2)

/-- The paragraph gate of process_blocks_recursive (line 88): inline runs
are repaired only for blocks whose type tag is paragraph; other blocks keep
their inlines untouched. -/
def process_inlines (env : REnv) (btype : String) (inlines : List InlineRun) :
    Except Unit (List InlineRun × Nat) :=
  if btype = "paragraph" then process_runs env inlines else .ok (inlines, 0)

mutual
/-- process_blocks_recursive applied to one block (lines 86-133): inline
runs are repaired only for blocks whose type is paragraph, then the walk
recurses into items, nested blocks, and table rows regardless of type. -/
def process_block (env : REnv) : Block → Except Unit (Block × Nat)
  | .mk btype inlines items blocks rows => do
    let (inl, n0) ← process_inlines env btype inlines
    let (its, n1) ← process_items env items
    let (bls, n2) ← process_block_list env blocks
    let (rws, n3) ← process_rows env rows
    .ok (.mk btype inl its bls rws, n0 + n1 + n2 + n3)

/-- The for loop of process_blocks_recursive over a block list (line 86). -/
def process_block_list (env : REnv) : List Block → Except Unit (List Block × Nat)
  | [] => .ok ([], 0)
  | b :: bs => do
    let (b1, n1) ← process_block env b
    let (bs1, n2) ← process_block_list env bs
    .ok (b1 :: bs1, n1 + n2)

/-- Recursion into list items (lines 126-127): each item is a block list. -/
def process_items (env : REnv) : List BlockItem → Except Unit (List BlockItem × Nat)
  | [] => .ok ([], 0)
  | .mk bs :: rest => do
    let (bs1, n1) ← process_block_list env bs
    let (rest1, n2) ← process_items env rest
    .ok (.mk bs1 :: rest1, n1 + n2)

/-- Recursion into table rows (lines 130-133). -/
def process_rows (env : REnv) : List BlockRow → Except Unit (List BlockRow × Nat)
  | [] => .ok ([], 0)
  | .mk cs :: rest => do
    let (cs1, n1) ← process_cells env cs
    let (rest1, n2) ← process_rows env rest
    .ok (.mk cs1 :: rest1, n1 + n2)

/-- Recursion into the cells of one table row (lines 132-133). -/
def process_cells (env : REnv) : List BlockCell → Except Unit (List BlockCell × Nat)
  | [] => .ok ([], 0)
  | .mk bs :: rest => do
    let (bs1, n1) ← process_block_list env bs
    let (rest1, n2) ← process_cells env rest
    .ok (.mk bs1 :: rest1, n1 + n2)
end

/-- The chapter loop of repair_process (lines 135-138), accumulating the
nonlocal fixed_count. -/
def repair_chapters (env : REnv) : List Chapter → Except Unit (List Chapter × Nat)
  | [] => .ok ([], 0)
  | c :: cs => do
    let (bs, n1) ← process_block_list env c.blocks
    let (rest, n2) ← repair_chapters env cs
    .ok (⟨bs⟩ :: rest, n1 + n2)

/-- LinkRepairAgent.repair_process (lines 79-141). The source mutates
report_data in place and returns it (line 141); the fixed_count counter is
printed at line 140 and is not part of the return value. -/
def repair_process (env : REnv) (report_data : Report) : Except Unit Report := do
  let (cs, _fixed_count) ← repair_chapters env report_data.chapters
  .ok ⟨cs⟩

/-- The final value of the nonlocal fixed_count counter of repair_process,
as printed at line 140. -/
def repair_fixed_count (env : REnv) (report_data : Report) : Except Unit Nat := do
  let (_, n) ← repair_chapters env report_data.chapters
  .ok n

/-- Whether every inline run of the list carries a text key (the document
data model's conformance condition on runs). -/
def runs_text_present (rs : List InlineRun) : Bool :=
  rs.all fun r => r.text.isSome

mutual
/-- Conformance of one block to the chapter/block/inline/mark data model:
every inline run anywhere in it has a text key. -/
def block_conforming : Block → Bool
  | .mk _ inlines items blocks rows =>
    runs_text_present inlines && items_conforming items &&
      blocks_conforming blocks && rows_conforming rows

def blocks_conforming : List Block → Bool
  | [] => true
  | b :: bs => block_conforming b && blocks_conforming bs

def items_conforming : List BlockItem → Bool
  | [] => true
  | .mk bs :: rest => blocks_conforming bs && items_conforming rest

def rows_conforming : List BlockRow → Bool
  | [] => true
  | .mk cs :: rest => cells_conforming cs && rows_conforming rest

def cells_conforming : List BlockCell → Bool
  | [] => true
  | .mk bs :: rest => blocks_conforming bs && cells_conforming rest
end

/-- Conformance of a whole report to the document data model. -/
def report_conforming (r : Report) : Bool :=
  r.chapters.all fun c => blocks_conforming c.blocks

/-- A repair environment in which the network probe always raises and the
content store returns no rows for any query: no dead link can be saved. -/
def envNoSource : REnv :=
  { probe := fun _ => .error (), dbAvailable := true, fetch := fun _ _ _ => [] }

/-- An inline run holding a dead link (empty href) with anchor text
相关 报道. -/
def runDead : InlineRun :=
  { text := some "相关 报道", marks := [{ mtype := "link", attrs := some ⟨some ""⟩ }] }

/-- A one-chapter, one-paragraph report around runDead. -/
def reportDead : Report := ⟨[⟨[Block.mk "paragraph" [runDead] [] [] []]⟩]⟩

/-! ### MediaEngine/agent.py: multimodal cross-validation -/

/-- One media item attached to a webpage result, as read by
analyze_multimodal and _base_media_analysis with dict .get: the type key,
extracted_keywords (default []), description (default applied when the key
is absent). -/
structure MediaData where
  mtype : Option String := none
  extracted_keywords : List String := []
  description : Option String := none
deriving Repr, DecidableEq

/-- The analysis dict built by _base_media_analysis and possibly adjusted by
analyze_multimodal. confidence is a rational: the only float values the
source can produce are 1.0 and 0.5, both exactly representable, so rational
arithmetic is exact here. -/
structure MediaAnalysis where
  mtype : Option String
  keywords : List String
  description : String
  confidence : ℚ
  final_conclusion : String
  conflict_note : Option String
deriving Repr, DecidableEq

/-- The stop-word set of _extract_keywords (line 195). -/
def stopwords : List String := ["的", "了", "是", "在", "和", "有"]

/-- DeepSearchAgent._extract_keywords (agent.py lines 187-196): empty or
missing context yields []; otherwise lowercase, take the maximal word-
character runs (re.findall of word runs), and drop stop words. -/
def extract_keywords (text_context : String) : List String :=
  if text_context = "" then []
  else
    let words := runsBy isWordCharPy (lowerStr text_context)
    words.filter fun w => !(stopwords.contains w)

/-- DeepSearchAgent._base_media_analysis (lines 149-167): the initial
analysis dict with confidence 1.0 and the description-derived conclusion. -/
def base_media_analysis (media_data : MediaData) : MediaAnalysis :=
  let description := media_data.description.getD "未获取到描述"
  { mtype := media_data.mtype
    keywords := media_data.extracted_keywords
    description := description
    confidence := 1
    final_conclusion := "媒体内容分析：" ++ description
    conflict_note := none }

/-- DeepSearchAgent._check_conflict (lines 169-185): a media keyword k
conflicts when the token 不k or 无k occurs in the keyword list extracted
from the text context (exact token membership, not substring). The reason
string is modelled with the conflicting keywords joined by commas where the
source interpolates the Python list display. -/
def check_conflict (media_analysis : MediaAnalysis) (text_context : String) : Bool × String :=
  let media_keywords := media_analysis.keywords
  let text_keywords := extract_keywords text_context
  let conflicting := media_keywords.filter fun kw =>
    text_keywords.contains ("不" ++ kw) || text_keywords.contains ("无" ++ kw)
  (!conflicting.isEmpty,
    "多模态关键词" ++ String.intercalate ", " conflicting ++ "与文本上下文矛盾")

/-- DeepSearchAgent.analyze_multimodal (lines 134-147): base analysis, then
on a detected conflict halve the confidence, set the conflict note, and
prefix the conclusion with the caution marker. -/
def analyze_multimodal (media_data : MediaData) (text_context : String) : MediaAnalysis :=
  let media_analysis := base_media_analysis media_data
  let conflict_check := check_conflict media_analysis text_context
  if conflict_check.1 then
    { media_analysis with
      confidence := media_analysis.confidence * 0.5
      conflict_note := some ("与文本上下文冲突：" ++ conflict_check.2)
      final_conclusion := "【需谨慎参考】" ++ media_analysis.final_conclusion }
  else media_analysis

/-! ### MediaEngine/agent.py: the research state machine -/

/-- One webpage entry of the search adapter response
(search_response.webpages); name, url, snippet, date_last_crawled and the
multimedia list are read with getattr defaults. -/
structure Webpage where
  name : String := ""
  url : String := ""
  snippet : String := ""
  date_last_crawled : Option String := none
  multimedia : List MediaData := []
deriving Repr, DecidableEq

/-- The dict appended to search_results by the conversion loop (lines
336-344 and 442-450): score is always None and is omitted. -/
structure SearchResultItem where
  title : String
  url : String
  content : String
  raw_content : String
  published_date : Option String
  media_analysis : List MediaAnalysis
deriving Repr, DecidableEq

/-- One record of a paragraph's search history. Modelled from the spec: the
SearchRecord of spec section 3 carries the query, the tool and the ordered
results (the timestamp is not modelled; no claim depends on it). The state
classes live in MediaEngine/state.py, which is not among the provided
sources. -/
structure SearchRecord where
  search_query : String
  search_tool : String
  results : List SearchResultItem
deriving Repr, DecidableEq

/-- Modelled from the spec: the per-paragraph ResearchState of spec section
3 (state.py is not among the provided sources): an append-only
searchHistory, the ordered summaries, latestSummary, and the completed
flag. -/
structure ResearchState where
  search_history : List SearchRecord := []
  summaries : List String := []
  latest_summary : String := ""
  completed : Bool := false
deriving Repr, DecidableEq

/-- Modelled from the spec: research.add_search_results appends one
SearchRecord to the history (spec section 3, SearchRecord append-only). -/
def ResearchState.add_search_results (rs : ResearchState) (q tool : String)
    (results : List SearchResultItem) : ResearchState :=
  { rs with search_history := rs.search_history ++ [⟨q, tool, results⟩] }

/-- Modelled from the spec: research.mark_completed sets the completed flag
(spec section 3, completed transitions false to true exactly once). -/
def ResearchState.mark_completed (rs : ResearchState) : ResearchState :=
  { rs with completed := true }

/-- Modelled from the spec: the summary returned by a summarization
collaborator becomes the new latestSummary and is appended to summaries
(spec section 4.1). -/
def ResearchState.set_summary (rs : ResearchState) (s : String) : ResearchState :=
  { rs with summaries := rs.summaries ++ [s], latest_summary := s }

/-- One paragraph of the report structure with its research state. -/
structure Paragraph where
  title : String
  content : String
  research : ResearchState
deriving Repr, DecidableEq

/-- The dict returned by the search-planning collaborators (FirstSearchNode
and ReflectionNode): search_query and reasoning are mandatory keys, while
search_tool is read with .get and defaulted by the agent. -/
structure SearchPlan where
  search_query : String
  search_tool : Option String
  reasoning : String

/-- The external collaborators of DeepSearchAgent as total functions: the
run under consideration is one in which no collaborator raises.
first_search and reflection are the planning nodes (reflection also sees the
paragraph's latest summary); the five search functions are the
BochaMultimodalSearch adapter entry points (each returning the webpages
list of its BochaResponse); first_summary and reflection_summary are the
summarization nodes, abstracted as functions of the summary-input fields
(title, content, query, converted results, and for reflection the previous
latest summary) — the prompt-formatting helper they are fed through is
external to the modelled sources. -/
structure AgentEnv where
  first_search : String → String → SearchPlan
  reflection : String → String → String → SearchPlan
  comprehensive_search : String → Nat → List Webpage
  web_search_only : String → Nat → List Webpage
  search_for_structured_data : String → List Webpage
  search_last_24_hours : String → List Webpage
  search_last_week : String → List Webpage
  first_summary : String → String → String → List SearchResultItem → String
  reflection_summary : String → String → String → List SearchResultItem → String → String

/-- DeepSearchAgent.execute_search_tool (agent.py lines 98-131): dispatch on
the tool name; an unrecognized name falls back to comprehensive_search
(whose own default result cap is 10). max_results models the optional
kwarg; absent, comprehensive_search defaults it to 10 and web_search_only
to 15. -/
def execute_search_tool (env : AgentEnv) (tool_name query : String)
    (max_results : Option Nat) : List Webpage :=
  if tool_name = "comprehensive_search" then env.comprehensive_search query (max_results.getD 10)
  else if tool_name = "web_search_only" then env.web_search_only query (max_results.getD 15)
  else if tool_name = "search_for_structured_data" then env.search_for_structured_data query
  else if tool_name = "search_last_24_hours" then env.search_last_24_hours query
  else if tool_name = "search_last_week" then env.search_last_week query
  else env.comprehensive_search query 10

/-- The kwargs preparation shared by both rounds (lines 299-303 and
405-410): comprehensive_search and web_search_only get max_results = 10. -/
def round_kwargs (search_tool : String) : Option Nat :=
  if search_tool = "comprehensive_search" ∨ search_tool = "web_search_only" then some 10 else none

/-- The webpage-to-search_results conversion loop shared by the initial
round (lines 307-344) and each reflection round (lines 413-450): an absent
or empty webpages list yields [], consumption is capped to the first 10
webpages, and each media item of a webpage gets one multimodal analysis
cross-validated against that webpage's snippet. -/
def convert_results (webpages : List Webpage) : List SearchResultItem :=
  (webpages.take 10).map fun result =>
    { title := result.name
      url := result.url
      content := result.snippet
      raw_content := result.snippet
      published_date := result.date_last_crawled
      media_analysis := result.multimedia.map fun md => analyze_multimodal md result.snippet }

/-- DeepSearchAgent._initial_search_and_summary (lines 274-378) acting on
one paragraph: plan, search, convert, append the search record, then set
the initial summary. -/
def initial_search_and_summary (env : AgentEnv) (p : Paragraph) : Paragraph :=
  let plan := env.first_search p.title p.content
  let search_query := plan.search_query
  let search_tool := plan.search_tool.getD "comprehensive_search"
  let webpages := execute_search_tool env search_tool search_query (round_kwargs search_tool)
  let search_results := convert_results webpages
  let research1 := p.research.add_search_results search_query search_tool search_results
  let summary := env.first_summary p.title p.content search_query search_results
  { p with research := research1.set_summary summary }

/-- One iteration of DeepSearchAgent._reflection_loop (lines 384-484): plan
from the latest summary, search, convert, append the search record, then
set the reflection summary. The body never inspects the results for
convergence. -/
def reflection_round (env : AgentEnv) (p : Paragraph) : Paragraph :=
  let plan := env.reflection p.title p.content p.research.latest_summary
  let search_query := plan.search_query
  let search_tool := plan.search_tool.getD "comprehensive_search"
  let webpages := execute_search_tool env search_tool search_query (round_kwargs search_tool)
  let search_results := convert_results webpages
  let research1 := p.research.add_search_results search_query search_tool search_results
  let summary := env.reflection_summary p.title p.content search_query search_results
    p.research.latest_summary
  { p with research := research1.set_summary summary }

/-- DeepSearchAgent._reflection_loop (lines 380-484): exactly
max_reflections rounds (the source's for over range(MAX_REFLECTIONS)),
with no early stop. -/
def reflection_loop (env : AgentEnv) (max_reflections : Nat) (p : Paragraph) : Paragraph :=
  match max_reflections with
  | 0 => p
  | n + 1 => reflection_loop env n (reflection_round env p)

/-- The per-paragraph body of DeepSearchAgent._process_paragraphs (lines
258-269): initial search and summary, the reflection loop, then
mark_completed. -/
def process_paragraph (env : AgentEnv) (max_reflections : Nat) (p : Paragraph) : Paragraph :=
  let p1 := initial_search_and_summary env p
  let p2 := reflection_loop env max_reflections p1
  { p2 with research := p2.research.mark_completed }

/-- DeepSearchAgent._process_paragraphs (lines 254-272): every paragraph of
the run, in order; iteration i reads and writes only paragraph i. -/
def process_paragraphs (env : AgentEnv) (max_reflections : Nat)
    (ps : List Paragraph) : List Paragraph :=
  ps.map (process_paragraph env max_reflections)

/-! ### Claim theorems -/

/-- An environment whose network probe reports every URL reachable; used to
witness that statically rejected hrefs are classified dead without the
probe being consulted. -/
def envAlive : REnv :=
  { probe := fun _ => .ok true, dbAvailable := true, fetch := fun _ _ _ => [] }

/-- Claim C6: for every href string, the liveness probe classifies it dead
without issuing any network call whenever the href is empty, shorter than
10 characters, does not contain http, contains an ellipsis, or contains the
example.com placeholder domain; in particular http://example.com/a and any
href of length 5 are classified dead. Absence of a network call is
expressed by quantifying over every probe environment: the result is false
even when the probe would report every URL alive. -/
theorem C6_static_rejections_dead :
    (∀ url : String,
      (url = "" ∨ url.length < 10 ∨ strContains url "http" = false ∨
        strContains url "..." = true ∨ strContains url "example.com" = true) →
      ∀ env : REnv, is_url_alive env url = false) ∧
    (∀ env : REnv, is_url_alive env "http://example.com/a" = false) ∧
    (∀ (env : REnv) (url : String), url.length = 5 → is_url_alive env url = false) := by
  refine ⟨?_, ?_, ?_⟩
  · intro url h env
    unfold is_url_alive
    by_cases h1 : url = "" ∨ url.length < 10 ∨ strContains url "http" = false
    · rw [if_pos h1]
    · rw [if_neg h1]
      have h2 : strContains url "..." = true ∨ strContains url "example.com" = true := by
        rcases h with h | h | h | h | h
        · exact absurd (Or.inl h) h1
        · exact absurd (Or.inr (Or.inl h)) h1
        · exact absurd (Or.inr (Or.inr h)) h1
        · exact Or.inl h
        · exact Or.inr h
      rw [if_pos h2]
  · intro env
    unfold is_url_alive
    rw [if_neg (by decide), if_pos (by decide)]
  · intro env url h
    unfold is_url_alive
    rw [if_pos (Or.inr (Or.inl (by omega)))]

/-- Witness for C6 at concrete hrefs, under the environment whose probe
would report everything alive. -/
theorem C6_static_rejections_dead_witness :
    is_url_alive envAlive "https://t.cn/a...b" = false ∧
    is_url_alive envAlive "http://example.com/a" = false ∧
    is_url_alive envAlive "abcde" = false :=
  ⟨C6_static_rejections_dead.1 "https://t.cn/a...b"
      (Or.inr (Or.inr (Or.inr (Or.inl (by decide))))) envAlive,
   C6_static_rejections_dead.2.1 envAlive,
   C6_static_rejections_dead.2.2 envAlive "abcde" (by decide)⟩

/-- Claim C7: the literal per-platform canonicalization cases. A bilibili
record with video_id BV1xy keeps the id verbatim; a purely numeric bilibili
video_id 123456 is prefixed with av; a zhihu record with question_id 55 and
content_id 77 yields the question/55/answer/77 path; every xhs record
yields the fixed view-in-app placeholder, which is never a clickable URL
(it does not even contain http). -/
theorem C7_canonicalization_literal_cases :
    construct_url_smart "bilibili" { video_id := "BV1xy" } =
      "https://www.bilibili.com/video/BV1xy" ∧
    construct_url_smart "bilibili" { video_id := "123456" } =
      "https://www.bilibili.com/video/av123456" ∧
    construct_url_smart "zhihu" { question_id := "55", content_id := "77" } =
      "https://www.zhihu.com/question/55/answer/77" ∧
    ∀ row : Row, construct_url_smart "xhs" row = "（请在小红书App查看）" ∧
      strContains (construct_url_smart "xhs" row) "http" = false := by
  refine ⟨by decide, by decide, by decide, fun row => ⟨rfl, rfl⟩⟩

/-- The platform tags _construct_url_smart dispatches on; every other tag
falls through to the raw-URL fallback. -/
def known_platforms : List String :=
  ["bilibili", "xhs", "douyin", "zhihu", "kuaishou", "tieba", "weibo"]

/-- Claim C10: URL canonicalization is total. In this embedding
construct_url_smart is a total function into String by construction (the
source's try/except is unreachable because no body operation can raise in
the typed model), and every platform tag outside the dispatched set — such
as the daily tag derived from the daily_news table — falls through to the
raw-URL fallback chain. -/
theorem C10_unknown_platform_fallback (platform : String) (row : Row)
    (h : platform ∉ known_platforms) :
    construct_url_smart platform row = url_fallback row := by
  simp only [known_platforms, List.mem_cons, List.mem_singleton, not_or] at h
  obtain ⟨h1, h2, h3, h4, h5, h6, h7, _⟩ := h
  unfold construct_url_smart
  rw [if_neg h1, if_neg h2, if_neg h3, if_neg h4, if_neg h5, if_neg h6, if_neg h7]
  unfold finish_url
  rw [if_neg (by simp)]

/-- A daily_news row carrying only the raw url column. -/
def rowDaily : Row := { url := "https://news.site/path/abcd" }

/-- Witness for C10 at the daily tag (the platform name derived from the
daily_news table) and a concrete news row. -/
theorem C10_unknown_platform_fallback_witness :
    construct_url_smart "daily" rowDaily = url_fallback rowDaily ∧
    url_fallback rowDaily = "https://news.site/path/abcd" ∧
    tableHead "daily_news" = "daily" :=
  ⟨C10_unknown_platform_fallback "daily" rowDaily (by decide), by decide, by decide⟩

/-- The conflict flag computed by _check_conflict on a base analysis holds
exactly when some media keyword has its negation-prefixed form among the
tokens extracted from the text context. -/
theorem check_conflict_flag_iff (media_data : MediaData) (text_context : String) :
    (check_conflict (base_media_analysis media_data) text_context).1 = true ↔
      ∃ kw ∈ media_data.extracted_keywords,
        ("不" ++ kw) ∈ extract_keywords text_context ∨
        ("无" ++ kw) ∈ extract_keywords text_context := by
  unfold check_conflict base_media_analysis
  simp [List.isEmpty_iff, List.filter_eq_nil_iff]
  constructor
  · rintro ⟨kw, hkw, hc⟩
    exact ⟨kw, hkw, by tauto⟩
  · rintro ⟨kw, hkw, hc⟩
    exact ⟨kw, hkw, by tauto⟩

/-- Claim C9: for every media item and text snippet, the multimodal
analysis has confidence within [0,1]; confidence starts at 1.0 and is
halved exactly once, precisely when a negation-prefixed contradiction with
the snippet's keyword set is detected, in which case the conflict note is
set and the conclusion is prefixed with the caution marker; otherwise
confidence stays 1, no note is set, and the conclusion is unchanged. -/
theorem C9_confidence_invariant (media_data : MediaData) (text_context : String) :
    0 ≤ (analyze_multimodal media_data text_context).confidence ∧
    (analyze_multimodal media_data text_context).confidence ≤ 1 ∧
    ((∃ kw ∈ media_data.extracted_keywords,
        ("不" ++ kw) ∈ extract_keywords text_context ∨
        ("无" ++ kw) ∈ extract_keywords text_context) →
      (analyze_multimodal media_data text_context).confidence = 1 / 2 ∧
      (analyze_multimodal media_data text_context).conflict_note.isSome = true ∧
      (analyze_multimodal media_data text_context).final_conclusion =
        "【需谨慎参考】" ++ (base_media_analysis media_data).final_conclusion) ∧
    ((¬ ∃ kw ∈ media_data.extracted_keywords,
        ("不" ++ kw) ∈ extract_keywords text_context ∨
        ("无" ++ kw) ∈ extract_keywords text_context) →
      (analyze_multimodal media_data text_context).confidence = 1 ∧
      (analyze_multimodal media_data text_context).conflict_note = none ∧
      (analyze_multimodal media_data text_context).final_conclusion =
        (base_media_analysis media_data).final_conclusion) := by
  have hconf : (base_media_analysis media_data).confidence = 1 := rfl
  by_cases hc : (check_conflict (base_media_analysis media_data) text_context).1 = true
  · have hex := (check_conflict_flag_iff media_data text_context).mp hc
    have hc1 : (analyze_multimodal media_data text_context).confidence =
        (base_media_analysis media_data).confidence * 0.5 := by
      simp only [analyze_multimodal]
      rw [if_pos hc]
    have hc2 : (analyze_multimodal media_data text_context).conflict_note.isSome = true := by
      simp only [analyze_multimodal]
      rw [if_pos hc]
      rfl
    have hc3 : (analyze_multimodal media_data text_context).final_conclusion =
        "【需谨慎参考】" ++ (base_media_analysis media_data).final_conclusion := by
      simp only [analyze_multimodal]
      rw [if_pos hc]
    refine ⟨?_, ?_, fun _ => ⟨?_, hc2, hc3⟩, fun hn => absurd hex hn⟩
    · rw [hc1, hconf]; norm_num
    · rw [hc1, hconf]; norm_num
    · rw [hc1, hconf]; norm_num
  · have hex := (check_conflict_flag_iff media_data text_context).not.mp hc
    have hval : analyze_multimodal media_data text_context = base_media_analysis media_data := by
      simp only [analyze_multimodal]
      rw [if_neg hc]
    refine ⟨?_, ?_, fun hx => absurd hx hex, fun _ => ⟨?_, ?_, ?_⟩⟩
    · rw [hval, hconf]; norm_num
    · rw [hval, hconf]
    · rw [hval, hconf]
    · rw [hval]; rfl
    · rw [hval]

/-- Witness for C9 at a concrete media item with keyword 好 and a snippet
containing its negation 不好, and at a snippet with no contradiction. -/
theorem C9_confidence_invariant_witness :
    (analyze_multimodal { extracted_keywords := ["好"] } "这个 不好").confidence = 1 / 2 ∧
    (analyze_multimodal { extracted_keywords := ["好"] } "这个 不好").conflict_note.isSome = true ∧
    (analyze_multimodal { extracted_keywords := ["好"] } "这个 很好").confidence = 1 :=
  ⟨((C9_confidence_invariant { extracted_keywords := ["好"] } "这个 不好").2.2.1
      (by decide)).1,
   ((C9_confidence_invariant { extracted_keywords := ["好"] } "这个 不好").2.2.1
      (by decide)).2.1,
   ((C9_confidence_invariant { extracted_keywords := ["好"] } "这个 很好").2.2.2
      (by decide)).1⟩

/-- A fetch oracle under which the first table (bilibili_video) returns one
row with no usable id or URL column while a later table (douyin_aweme)
returns a row whose id canonicalizes to a valid URL. -/
def fetchC2 : String → String → Nat → List Row := fun table _ _ =>
  if table = "bilibili_video" then [{}]
  else if table = "douyin_aweme" then [{ aweme_id := "123" }]
  else []

/-- Repair environment built on fetchC2; its probe always raises. -/
def envC2 : REnv := { probe := fun _ => .error (), dbAvailable := true, fetch := fetchC2 }

/-- Counterexample to claim C2. The claim says resolution adopts the first
result across all tables that has a usable (http-containing) URL, so here
it would adopt the douyin URL of the second returned record; the code
examines only results[0], whose URL is the no-valid-source placeholder, and
returns no candidate. -/
theorem C2_counterexample :
    find_real_url_from_db envC2 "hello world" = none ∧
    (search_topic_globally fetchC2 (clean_query "hello world") 1).map QueryResult.url =
      ["（无有效来源链接）", "https://www.douyin.com/video/123"] ∧
    strContains "https://www.douyin.com/video/123" "http" = true := by
  exact ⟨by decide, by decide, by decide⟩

/-- Claim C2 as amended: for a dead link whose derived repair key has at
least 2 characters (and an available database), resolution queries the
content store with limit 1 per table and examines only the first returned
record: its URL is adopted exactly when nonempty and containing http, and
when the first record's URL is unusable no candidate is adopted even if a
later record's URL is usable. -/
theorem C2_first_record_only (env : REnv) (query_text : String)
    (h1 : env.dbAvailable = true) (h2 : query_text ≠ "")
    (h3 : 2 ≤ (clean_query query_text).length) :
    (find_real_url_from_db env query_text =
      match search_topic_globally env.fetch (clean_query query_text) 1 with
      | [] => none
      | candidate :: _ =>
        if candidate.url ≠ "" ∧ strContains candidate.url "http" then some candidate.url
        else none) ∧
    (∀ (c : QueryResult) (cs : List QueryResult),
      search_topic_globally env.fetch (clean_query query_text) 1 = c :: cs →
      (c.url = "" ∨ strContains c.url "http" = false) →
      find_real_url_from_db env query_text = none) := by
  have hmain : find_real_url_from_db env query_text =
      match search_topic_globally env.fetch (clean_query query_text) 1 with
      | [] => none
      | candidate :: _ =>
        if candidate.url ≠ "" ∧ strContains candidate.url "http" then some candidate.url
        else none := by
    unfold find_real_url_from_db
    rw [if_neg (by simp [h1, h2]), if_neg (by omega)]
  refine ⟨hmain, fun c cs hcs hbad => ?_⟩
  rw [hmain, hcs]
  show (if c.url ≠ "" ∧ strContains c.url "http" = true then some c.url else none) = none
  rcases hbad with hbad | hbad
  · simp [hbad]
  · rw [if_neg]
    rintro ⟨-, hcontra⟩
    rw [hbad] at hcontra
    exact Bool.false_ne_true hcontra

/-- Witness for the amended C2 at the concrete envC2 environment and the
anchor text hello world (repair key of length 11). -/
theorem C2_first_record_only_witness :
    find_real_url_from_db envC2 "hello world" = none := by
  have h := C2_first_record_only envC2 "hello world" rfl (by decide) (by decide)
  refine h.2 ⟨"bilibili", "video", "", "（无有效来源链接）", "bilibili_video"⟩
    [{ platform := "douyin", content_type := "video", title_or_content := "",
       url := "https://www.douyin.com/video/123", source_table := "douyin_aweme" }]
    (by decide) (Or.inr (by decide))

/-- One reflection round appends exactly one search record and leaves the
completed flag untouched, regardless of what the planner chooses or how
many results the adapter returns. -/
theorem reflection_round_effect (env : AgentEnv) (p : Paragraph) :
    (reflection_round env p).research.search_history.length =
      p.research.search_history.length + 1 ∧
    (reflection_round env p).research.completed = p.research.completed := by
  simp [reflection_round, ResearchState.add_search_results, ResearchState.set_summary]

/-- The reflection loop runs to its bound: it appends exactly
max_reflections search records, with no early stop. -/
theorem reflection_loop_effect (env : AgentEnv) (max_reflections : Nat) (p : Paragraph) :
    (reflection_loop env max_reflections p).research.search_history.length =
      p.research.search_history.length + max_reflections ∧
    (reflection_loop env max_reflections p).research.completed = p.research.completed := by
  induction max_reflections generalizing p with
  | zero => simp [reflection_loop]
  | succ k ih =>
    have hr := reflection_round_effect env p
    have hl := ih (reflection_round env p)
    unfold reflection_loop
    refine ⟨?_, ?_⟩
    · rw [hl.1, hr.1]; omega
    · rw [hl.2, hr.2]

/-- The initial round appends exactly one search record and leaves the
completed flag untouched. -/
theorem initial_round_effect (env : AgentEnv) (p : Paragraph) :
    (initial_search_and_summary env p).research.search_history.length =
      p.research.search_history.length + 1 ∧
    (initial_search_and_summary env p).research.completed = p.research.completed := by
  simp [initial_search_and_summary, ResearchState.add_search_results, ResearchState.set_summary]

/-- Claim C1: in every completed run of the research state machine (no
collaborator raises, hence total collaborator oracles), every paragraph
that started fresh ends with a search history of length exactly
1 + max_reflections and with completed = true. The statement quantifies
over every environment, so it covers adapters that return zero results for
any or all rounds: the loop runs to the configured bound with no early
stop. -/
theorem C1_completed_run_history (env : AgentEnv) (max_reflections : Nat)
    (ps : List Paragraph)
    (h : ∀ p ∈ ps, p.research.search_history = [] ∧ p.research.completed = false) :
    ∀ q ∈ process_paragraphs env max_reflections ps,
      q.research.search_history.length = 1 + max_reflections ∧
      q.research.completed = true := by
  intro q hq
  simp only [process_paragraphs, List.mem_map] at hq
  obtain ⟨p, hp, rfl⟩ := hq
  have hfresh := h p hp
  constructor
  · show (process_paragraph env max_reflections p).research.search_history.length = _
    unfold process_paragraph
    simp only [ResearchState.mark_completed]
    rw [(reflection_loop_effect env max_reflections (initial_search_and_summary env p)).1,
      (initial_round_effect env p).1, hfresh.1]
    simp [Nat.add_comm]
  · rfl

/-- A collaborator environment whose search adapters return zero results in
every round. -/
def env0 : AgentEnv :=
  { first_search := fun _ _ => ⟨"q1", none, "r1"⟩
    reflection := fun _ _ _ => ⟨"q2", some "web_search_only", "r2"⟩
    comprehensive_search := fun _ _ => []
    web_search_only := fun _ _ => []
    search_for_structured_data := fun _ => []
    search_last_24_hours := fun _ => []
    search_last_week := fun _ => []
    first_summary := fun _ _ _ _ => "s1"
    reflection_summary := fun _ _ _ _ _ => "s2" }

/-- A single fresh paragraph as produced by structure generation. -/
def ps0 : List Paragraph := [⟨"X", "guidance", {}⟩]

/-- Witness for C1: a one-paragraph run with max_reflections = 2 under an
adapter that returns zero results for every round still completes with a
search history of length 3. -/
theorem C1_completed_run_history_witness :
    (process_paragraph env0 2 ⟨"X", "guidance", {}⟩).research.search_history.length = 1 + 2 ∧
    (process_paragraph env0 2 ⟨"X", "guidance", {}⟩).research.completed = true :=
  C1_completed_run_history env0 2 ps0 (by decide)
    (process_paragraph env0 2 ⟨"X", "guidance", {}⟩) (List.mem_singleton_self _)

/-- Processing a mark of a run whose text key is present always succeeds
and leaves the text key present. -/
theorem process_mark_text_some (env : REnv) (t : String) (m : Mark) :
    ∃ m1 t1 n, process_mark env (some t) m = .ok (m1, some t1, n) := by
  unfold process_mark
  by_cases h1 : m.mtype = "link"
  · rw [if_pos h1]
    by_cases h2 : is_url_alive env (mark_href m) = true
    · rw [if_pos h2]
      exact ⟨m, t, 0, rfl⟩
    · rw [if_neg h2]
      cases h3 : find_real_url_from_db env ((some t).getD "") with
      | some u => exact ⟨_, t, 1, rfl⟩
      | none =>
        show ∃ m1 t1 n,
          (if strContains t "(来源无法访问)" = false then
            Except.ok ((⟨m.mtype, some ⟨some "javascript:void(0);"⟩⟩ : Mark),
              some (t ++ " (来源暂不可用)"), 0)
          else Except.ok ((⟨m.mtype, some ⟨some "javascript:void(0);"⟩⟩ : Mark), some t, 0)) =
            Except.ok (m1, some t1, n)
        by_cases h4 : strContains t "(来源无法访问)" = false
        · rw [if_pos h4]
          exact ⟨_, _, 0, rfl⟩
        · rw [if_neg h4]
          exact ⟨_, t, 0, rfl⟩
  · rw [if_neg h1]
    exact ⟨m, t, 0, rfl⟩

/-- The mark loop over a run with a present text key always succeeds and
keeps the text key present. -/
theorem process_marks_text_some (env : REnv) (ms : List Mark) :
    ∀ t : String, ∃ ms1 t1 n, process_marks env ms (some t) = .ok (ms1, some t1, n) := by
  induction ms with
  | nil => exact fun t => ⟨[], t, 0, rfl⟩
  | cons m rest ih =>
    intro t
    obtain ⟨m1, t1, n1, h1⟩ := process_mark_text_some env t m
    obtain ⟨ms1, t2, n2, h2⟩ := ih t1
    refine ⟨m1 :: ms1, t2, n1 + n2, ?_⟩
    unfold process_marks
    rw [h1]
    show (process_marks env rest (some t1)).bind _ = _
    rw [h2]
    rfl

/-- Processing one conforming inline run succeeds. -/
theorem process_run_ok (env : REnv) (r : InlineRun) (h : r.text.isSome = true) :
    ∃ p, process_run env r = .ok p := by
  obtain ⟨t, ht⟩ := Option.isSome_iff_exists.mp h
  obtain ⟨ms1, t1, n, hm⟩ := process_marks_text_some env r.marks t
  refine ⟨(⟨some t1, ms1⟩, n), ?_⟩
  unfold process_run
  rw [ht, hm]
  rfl

/-- Processing a list of conforming inline runs succeeds. -/
theorem process_runs_ok (env : REnv) (rs : List InlineRun)
    (h : runs_text_present rs = true) : ∃ p, process_runs env rs = .ok p := by
  induction rs with
  | nil => exact ⟨([], 0), rfl⟩
  | cons r rest ih =>
    simp only [runs_text_present, List.all_cons, Bool.and_eq_true] at h
    obtain ⟨⟨r1, n1⟩, h1⟩ := process_run_ok env r h.1
    obtain ⟨⟨rs1, n2⟩, h2⟩ := ih h.2
    refine ⟨(r1 :: rs1, n1 + n2), ?_⟩
    unfold process_runs
    rw [h1]
    show (process_runs env rest).bind _ = _
    rw [h2]
    rfl

mutual
/-- Processing a conforming block succeeds. -/
theorem process_block_ok (env : REnv) (b : Block) (h : block_conforming b = true) :
    ∃ p, process_block env b = .ok p := by
  cases b with
  | mk btype inlines items blocks rows =>
    unfold block_conforming at h
    simp only [Bool.and_eq_true] at h
    obtain ⟨⟨⟨hinl, hits⟩, hbls⟩, hrws⟩ := h
    have hfirst : ∃ q, process_inlines env btype inlines = .ok q := by
      unfold process_inlines
      by_cases hb : btype = "paragraph"
      · rw [if_pos hb]
        exact process_runs_ok env inlines hinl
      · rw [if_neg hb]
        exact ⟨(inlines, 0), rfl⟩
    obtain ⟨⟨inl, n0⟩, h0⟩ := hfirst
    obtain ⟨⟨its, n1⟩, h1⟩ := process_items_ok env items hits
    obtain ⟨⟨bls, n2⟩, h2⟩ := process_block_list_ok env blocks hbls
    obtain ⟨⟨rws, n3⟩, h3⟩ := process_rows_ok env rows hrws
    refine ⟨(.mk btype inl its bls rws, n0 + n1 + n2 + n3), ?_⟩
    unfold process_block
    rw [h0]
    show (process_items env items).bind _ = _
    rw [h1]
    show (process_block_list env blocks).bind _ = _
    rw [h2]
    show (process_rows env rows).bind _ = _
    rw [h3]
    rfl

/-- Processing a conforming block list succeeds. -/
theorem process_block_list_ok (env : REnv) (bs : List Block)
    (h : blocks_conforming bs = true) : ∃ p, process_block_list env bs = .ok p := by
  cases bs with
  | nil => exact ⟨([], 0), rfl⟩
  | cons b rest =>
    unfold blocks_conforming at h
    simp only [Bool.and_eq_true] at h
    obtain ⟨⟨b1, n1⟩, h1⟩ := process_block_ok env b h.1
    obtain ⟨⟨bs1, n2⟩, h2⟩ := process_block_list_ok env rest h.2
    refine ⟨(b1 :: bs1, n1 + n2), ?_⟩
    unfold process_block_list
    rw [h1]
    show (process_block_list env rest).bind _ = _
    rw [h2]
    rfl

/-- Processing conforming list items succeeds. -/
theorem process_items_ok (env : REnv) (its : List BlockItem)
    (h : items_conforming its = true) : ∃ p, process_items env its = .ok p := by
  cases its with
  | nil => exact ⟨([], 0), rfl⟩
  | cons it rest =>
    cases it with
    | mk bs =>
      unfold items_conforming at h
      simp only [Bool.and_eq_true] at h
      obtain ⟨⟨bs1, n1⟩, h1⟩ := process_block_list_ok env bs h.1
      obtain ⟨⟨its1, n2⟩, h2⟩ := process_items_ok env rest h.2
      refine ⟨(.mk bs1 :: its1, n1 + n2), ?_⟩
      unfold process_items
      rw [h1]
      show (process_items env rest).bind _ = _
      rw [h2]
      rfl

/-- Processing conforming table rows succeeds. -/
theorem process_rows_ok (env : REnv) (rws : List BlockRow)
    (h : rows_conforming rws = true) : ∃ p, process_rows env rws = .ok p := by
  cases rws with
  | nil => exact ⟨([], 0), rfl⟩
  | cons rw0 rest =>
    cases rw0 with
    | mk cs =>
      unfold rows_conforming at h
      simp only [Bool.and_eq_true] at h
      obtain ⟨⟨cs1, n1⟩, h1⟩ := process_cells_ok env cs h.1
      obtain ⟨⟨rws1, n2⟩, h2⟩ := process_rows_ok env rest h.2
      refine ⟨(.mk cs1 :: rws1, n1 + n2), ?_⟩
      unfold process_rows
      rw [h1]
      show (process_rows env rest).bind _ = _
      rw [h2]
      rfl

/-- Processing conforming table cells succeeds. -/
theorem process_cells_ok (env : REnv) (cls : List BlockCell)
    (h : cells_conforming cls = true) : ∃ p, process_cells env cls = .ok p := by
  cases cls with
  | nil => exact ⟨([], 0), rfl⟩
  | cons cl rest =>
    cases cl with
    | mk bs =>
      unfold cells_conforming at h
      simp only [Bool.and_eq_true] at h
      obtain ⟨⟨bs1, n1⟩, h1⟩ := process_block_list_ok env bs h.1
      obtain ⟨⟨cls1, n2⟩, h2⟩ := process_cells_ok env rest h.2
      refine ⟨(.mk bs1 :: cls1, n1 + n2), ?_⟩
      unfold process_cells
      rw [h1]
      show (process_cells env rest).bind _ = _
      rw [h2]
      rfl
end

/-- The chapter loop succeeds on a conforming chapter list. -/
theorem repair_chapters_ok (env : REnv) (cs : List Chapter)
    (h : cs.all (fun c => blocks_conforming c.blocks) = true) :
    ∃ p, repair_chapters env cs = .ok p := by
  induction cs with
  | nil => exact ⟨([], 0), rfl⟩
  | cons c rest ih =>
    simp only [List.all_cons, Bool.and_eq_true] at h
    obtain ⟨⟨bs, n1⟩, h1⟩ := process_block_list_ok env c.blocks h.1
    obtain ⟨⟨cs1, n2⟩, h2⟩ := ih h.2
    refine ⟨(⟨bs⟩ :: cs1, n1 + n2), ?_⟩
    unfold repair_chapters
    rw [h1]
    show (repair_chapters env rest).bind _ = _
    rw [h2]
    rfl

/-- Claim C4: link repair never raises outward. For every document tree
conforming to the chapter/block/inline/mark data model and every
environment — any probe behavior including exceptions, any database
availability, any fetch results — repair_process returns normally; probe
failures are absorbed inside is_url_alive, database failures inside
_find_real_url_from_db, and a missing candidate leaves the link pointing at
the inert javascript:void(0); reference with the unavailable suffix. -/
theorem C4_repair_never_raises (env : REnv) (report_data : Report)
    (h : report_conforming report_data = true) :
    ∃ repaired, repair_process env report_data = .ok repaired := by
  obtain ⟨⟨cs, n⟩, hc⟩ := repair_chapters_ok env report_data.chapters h
  refine ⟨⟨cs⟩, ?_⟩
  unfold repair_process
  rw [hc]
  rfl

/-- Witness for C4: the dead-link report is conforming and the pass returns
normally even though the probe raises on every URL and the store has no
candidate. -/
theorem C4_repair_never_raises_witness :
    report_conforming reportDead = true ∧
    ∃ repaired, repair_process envNoSource reportDead = .ok repaired :=
  ⟨by decide, C4_repair_never_raises envNoSource reportDead (by decide)⟩

/-- Claim C8: a link mark without an attrs mapping is treated as if attrs
were empty — the href reads as the empty string without a lookup failure,
processing the mark succeeds whenever the run's text key is present, and
the written replacement or fallback href first creates the attrs mapping,
so the mark ends with attrs present. -/
theorem C8_absent_attrs_safe (env : REnv) (t : String) (m : Mark)
    (hlink : m.mtype = "link") (hattrs : m.attrs = none) :
    mark_href m = "" ∧
    ∃ m1 t1 n, process_mark env (some t) m = .ok (m1, some t1, n) ∧
      m1.attrs.isSome = true := by
  have hh : mark_href m = "" := by unfold mark_href; rw [hattrs]
  have halive : is_url_alive env (mark_href m) = false := by
    rw [hh]; unfold is_url_alive; rw [if_pos (Or.inl rfl)]
  refine ⟨hh, ?_⟩
  unfold process_mark
  rw [if_pos hlink, if_neg (by simp [halive])]
  cases h3 : find_real_url_from_db env ((some t).getD "") with
  | some u => exact ⟨_, t, 1, rfl, rfl⟩
  | none =>
    show ∃ m1 t1 n,
      (if strContains t "(来源无法访问)" = false then
        Except.ok ((⟨m.mtype, some ⟨some "javascript:void(0);"⟩⟩ : Mark),
          some (t ++ " (来源暂不可用)"), 0)
      else Except.ok ((⟨m.mtype, some ⟨some "javascript:void(0);"⟩⟩ : Mark), some t, 0)) =
        Except.ok (m1, some t1, n) ∧ m1.attrs.isSome = true
    by_cases h4 : strContains t "(来源无法访问)" = false
    · rw [if_pos h4]
      exact ⟨_, _, 0, rfl, rfl⟩
    · rw [if_neg h4]
      exact ⟨_, t, 0, rfl, rfl⟩

/-- Witness for C8: a link mark with no attrs map at all, processed in the
no-source environment, reads href as empty, gets repaired into the inert
fallback, and ends with a created attrs map. -/
theorem C8_absent_attrs_safe_witness :
    mark_href { mtype := "link" } = "" ∧
    ∃ m1 t1 n,
      process_mark envNoSource (some "相关 报道") { mtype := "link" } = .ok (m1, some t1, n) ∧
      m1.attrs.isSome = true :=
  C8_absent_attrs_safe envNoSource "相关 报道" { mtype := "link" } rfl rfl

/-- Claim C3 (code bug evaluation): one pass on the dead-link report
appends the unavailable suffix 来源暂不可用 once; a second pass on the
already-repaired report appends it again, because the at-most-once guard
searches the text for the different string 来源无法访问, which never occurs
in the appended suffix. -/
theorem C3_second_pass_appends_suffix_again :
    repair_process envNoSource reportDead =
      .ok ⟨[⟨[Block.mk "paragraph"
        [{ text := some "相关 报道 (来源暂不可用)",
           marks := [{ mtype := "link", attrs := some ⟨some "javascript:void(0);"⟩ }] }]
        [] [] []]⟩]⟩ ∧
    (repair_process envNoSource reportDead).bind (repair_process envNoSource) =
      .ok ⟨[⟨[Block.mk "paragraph"
        [{ text := some "相关 报道 (来源暂不可用) (来源暂不可用)",
           marks := [{ mtype := "link", attrs := some ⟨some "javascript:void(0);"⟩ }] }]
        [] [] []]⟩]⟩ ∧
    strContains "相关 报道 (来源暂不可用)" "(来源无法访问)" = false ∧
    strContains "相关 报道 (来源暂不可用)" "(来源暂不可用)" = true :=
  ⟨rfl, rfl, by decide, by decide⟩

/-- A content-store row whose only populated column is a raw video_url of
21 characters, canonicalizing to that URL through the fallback chain. -/
def rowC5 : Row := { video_url := "https://x.com/abcdefg" }

/-- Fetch oracle returning rowC5 for the first searched table. -/
def fetchC5 : String → String → Nat → List Row := fun table _ _ =>
  if table = "bilibili_video" then [rowC5] else []

/-- Environment whose probe reports every URL dead and whose store resolves
to exactly the URL the document already carries. -/
def envC5dead : REnv := { probe := fun _ => .ok false, dbAvailable := true, fetch := fetchC5 }

/-- Environment whose probe reports every URL alive. -/
def envC5alive : REnv := { probe := fun _ => .ok true, dbAvailable := true, fetch := fun _ _ _ => [] }

/-- The link mark of the C5 report: href equal to the URL the store would
resolve to. -/
def markC5 : Mark := { mtype := "link", attrs := some ⟨some "https://x.com/abcdefg"⟩ }

/-- A one-paragraph report around markC5. -/
def reportC5 : Report :=
  ⟨[⟨[Block.mk "paragraph" [{ text := some "breaking news report", marks := [markC5] }] [] [] []]⟩]⟩

/-- Counterexample to claim C5. The claim says the pass returns both the
mutated tree and the count of links actually fixed; but repair_process
returns only the document (link_repair.py line 141; fixed_count is printed
at line 140, not returned). Under envC5dead the link is classified dead and
repaired to the identical URL resolved from the store (count 1); under
envC5alive it is untouched (count 0); the returned values are identical in
both runs, so no caller can recover the fixed-link count from what the
pass returns. -/
theorem C5_counterexample :
    repair_process envC5dead reportC5 = .ok reportC5 ∧
    repair_process envC5alive reportC5 = .ok reportC5 ∧
    repair_fixed_count envC5dead reportC5 = .ok 1 ∧
    repair_fixed_count envC5alive reportC5 = .ok 0 :=
  ⟨rfl, rfl, rfl, rfl⟩

/-- Claim C5 as amended: the pass mutates the tree and returns only the
mutated tree, while the internally accumulated fixed-link counter — logged,
not returned — counts exactly the link marks that were classified dead and
whose database lookup resolved, the resolved URL becoming the mark's new
href. -/
theorem C5_tree_and_counter :
    (∀ (env : REnv) (r : Report) (cs : List Chapter) (k : Nat),
      repair_chapters env r.chapters = .ok (cs, k) →
      repair_process env r = .ok ⟨cs⟩ ∧ repair_fixed_count env r = .ok k) ∧
    (∀ (env : REnv) (t : String) (m m1 : Mark) (t1 : Option String) (n : Nat),
      process_mark env (some t) m = .ok (m1, t1, n) →
      (n = 0 ∨ n = 1) ∧
      (n = 1 ↔ m.mtype = "link" ∧ is_url_alive env (mark_href m) = false ∧
        ∃ u, find_real_url_from_db env t = some u ∧ mark_href m1 = u)) := by
  constructor
  · intro env r cs k h
    constructor
    · unfold repair_process
      rw [h]
      rfl
    · unfold repair_fixed_count
      rw [h]
      rfl
  · intro env t m m1 t1 n h
    unfold process_mark at h
    simp only [Option.getD_some] at h
    split at h
    · rename_i hlink
      split at h
      · rename_i halive
        simp only [Except.ok.injEq, Prod.mk.injEq] at h
        obtain ⟨hm, -, hn⟩ := h
        refine ⟨Or.inl hn.symm, ?_⟩
        constructor
        · intro h1
          exfalso
          omega
        · rintro ⟨-, hdead, -⟩
          rw [halive] at hdead
          exact absurd hdead (by decide)
      · rename_i halive
        split at h
        · rename_i u hfind
          simp only [Except.ok.injEq, Prod.mk.injEq] at h
          obtain ⟨hm, -, hn⟩ := h
          subst hm
          refine ⟨Or.inr hn.symm, ?_⟩
          constructor
          · intro _
            refine ⟨hlink, by simpa using halive, u, hfind, rfl⟩
          · intro _
            exact hn.symm
        · rename_i hfind
          have h2 : (if strContains t "(来源无法访问)" = false then
              Except.ok ((⟨m.mtype, some ⟨some "javascript:void(0);"⟩⟩ : Mark),
                some (t ++ " (来源暂不可用)"), 0)
            else Except.ok ((⟨m.mtype, some ⟨some "javascript:void(0);"⟩⟩ : Mark), some t, 0)) =
              Except.ok (m1, t1, n) := h
          split at h2 <;>
          · simp only [Except.ok.injEq, Prod.mk.injEq] at h2
            obtain ⟨hm, -, hn⟩ := h2
            refine ⟨Or.inl hn.symm, ?_⟩
            constructor
            · intro h1
              exfalso
              omega
            · rintro ⟨-, -, u, hu, -⟩
              rw [hfind] at hu
              exact Option.noConfusion hu
    · rename_i hlink
      simp only [Except.ok.injEq, Prod.mk.injEq] at h
      obtain ⟨hm, -, hn⟩ := h
      refine ⟨Or.inl hn.symm, ?_⟩
      constructor
      · intro h1
        exfalso
        omega
      · rintro ⟨hl, -, -⟩
        exact absurd hl hlink

/-- Witness for the amended C5 at the concrete C5 environments: the
repaired chapters and counter of envC5dead, and the per-mark
characterization at the mark whose dead href is re-resolved to the same
URL (count 1). -/
theorem C5_tree_and_counter_witness :
    (repair_process envC5dead reportC5 = .ok ⟨reportC5.chapters⟩ ∧
      repair_fixed_count envC5dead reportC5 = .ok 1) ∧
    ((1 = 0 ∨ 1 = 1) ∧
      (1 = 1 ↔ markC5.mtype = "link" ∧ is_url_alive envC5dead (mark_href markC5) = false ∧
        ∃ u, find_real_url_from_db envC5dead "breaking news report" = some u ∧
          mark_href markC5 = u)) :=
  ⟨C5_tree_and_counter.1 envC5dead reportC5 reportC5.chapters 1 rfl,
   C5_tree_and_counter.2 envC5dead "breaking news report" markC5 markC5
     (some "breaking news report") 1 rfl⟩

end HBF
